import Mathlib

/-!
Formal model of the loopholelabs/releaser release cache.

The repository contains two generations of the release cache:

* `pkg/cache/cache.go` (the 2021 implementation): `Cache.update` diffs the
  upstream listing against the recorded commit references, re-fetches only the
  changed releases (manifest synchronously, binaries in goroutines), validates
  downloaded binaries against the parsed checksum manifest, carries unchanged
  releases over verbatim, and publishes all four fields in a single lock
  section.

* the 2023 implementation (server + cache, `src/unnamed/part_002`):
  `Cache.doUpdate` rebuilds the release-name set, checksum table and
  artifact-name table from scratch on every cycle, publishes those three
  fields in a first lock section, then (only when the latest release name
  changed) downloads the latest release's binaries, and publishes
  `latestReleaseName` and `latestReleaseArtifacts` in a second, separate lock
  section.

Both are embedded below.  Go byte slices and file contents are modelled as
`String` (a byte string), the GitHub client as a function from asset id to
`Option String` (`none` is a download error), and SHA-256 as an explicit
function parameter `sha256hex` standing for Go's `crypto/sha256` + `%x`
formatting.  Goroutine effects of the 2021 `update` are modelled at the
`wg.Wait()` point: all checksum manifests are parsed in program order by the
main loop, and each download goroutine's body runs afterwards, which is the
schedule the surrounding code is written for.

Lean's own `String` functions are not kernel-reducible, so the Go `strings`
library functions used by the code (`Split`, `Join`, `ToLower`, `TrimSpace`,
`TrimSuffix`, `HasSuffix`) are re-implemented here over `List Char` with
structurally recursive definitions that evaluate inside `decide`.
-/

/-- Does the pattern list match the front of the other list? Models the
prefix test used by Go's strings.Split scanner. -/
def leadMatch : List Char → List Char → Bool
  | [], _ => true
  | _ :: _, [] => false
  | a :: as, b :: bs => a = b && leadMatch as bs

/-- Fuel-based splitter over char lists: splits on every non-overlapping
occurrence of the (non-empty) separator, scanning left to right.  With fuel
at least the length of the list it computes Go's strings.Split. -/
def splitAux (sep : List Char) : Nat → List Char → List (List Char)
  | _, [] => [[]]
  | 0, l => [l]
  | fuel+1, c :: rest =>
      if leadMatch sep (c :: rest) then
        [] :: splitAux sep fuel (List.drop sep.length (c :: rest))
      else
        match splitAux sep fuel rest with
        | [] => [[c]]
        | t :: ts => (c :: t) :: ts

/-- Go strings.Split (for a non-empty separator). -/
def goSplit (s sep : String) : List String :=
  if sep.data = [] then [s]
  else (splitAux sep.data s.data.length s.data).map fun l => String.mk l

/-- Go strings.Join. -/
def goJoin : List String → String → String
  | [], _ => ""
  | [x], _ => x
  | x :: xs, sep => x ++ sep ++ goJoin xs sep

/-- Go strings.HasSuffix. -/
def goHasSuffix (s suffix : String) : Bool :=
  leadMatch suffix.data.reverse s.data.reverse

/-- Go strings.TrimSuffix. -/
def goTrimSuffix (s suffix : String) : String :=
  if goHasSuffix s suffix then
    String.mk (List.take (s.data.length - suffix.data.length) s.data)
  else s

/-- White-space test of Go's unicode.IsSpace restricted to the ASCII range
that can occur in checksum manifests. -/
def isSpaceChar (c : Char) : Bool :=
  c = ' ' || c = '\t' || c = '\n' || c = '\r' || c = '\x0b' || c = '\x0c'

/-- Drop leading white space from a char list. -/
def dropLead : List Char → List Char
  | [] => []
  | c :: r => if isSpaceChar c then dropLead r else c :: r

/-- Go strings.TrimSpace. -/
def goTrimSpace (s : String) : String :=
  String.mk (((dropLead s.data).reverse |> dropLead).reverse)

/-- ASCII lower-casing of one char, as Go's strings.ToLower acts on the
ASCII release and asset names handled by this program. -/
def charToLower (c : Char) : Char :=
  if 65 ≤ c.toNat ∧ c.toNat ≤ 90 then Char.ofNat (c.toNat + 32) else c

/-- Go strings.ToLower. -/
def goToLower (s : String) : String :=
  String.mk (s.data.map charToLower)

example : goSplit "a_b_c" "_" = ["a", "b", "c"] := by decide
example : goSplit "a__b" "_" = ["a", "", "b"] := by decide
example : goToLower "AbC1.0" = "abc1.0" := by decide
example : goTrimSpace " x \n" = "x" := by decide
example : goHasSuffix "f.tar.gz" ".tar.gz" = true := by decide
example : goTrimSuffix "f.tar.gz" ".tar.gz" = "f" := by decide
example : goJoin ["amd64", "v2"] "_" = "amd64_v2" := by decide

/-! ## Data model shared by both cache generations -/

/-- One release asset as returned by the GitHub listing (go-github
RepositoryRelease asset): numeric id and file name. -/
structure Asset where
  id : Nat
  name : String
deriving DecidableEq, Repr

/-- One release in the upstream listing: name, target commitish (the commit
reference used for change detection by the 2021 code), and assets. -/
structure Release where
  name : String
  targetCommitish : String
  assets : List Asset
deriving DecidableEq, Repr

/-- The GitHub client's DownloadReleaseAsset, as a pure environment: asset id
to downloaded bytes, with none standing for a failed download.  The listing
call is passed separately as an Option (List Release). -/
def Env : Type := Nat → Option String

/-- Association-list map with Go-map overwrite semantics on insert. -/
def mapInsert {α β : Type} [DecidableEq α] : List (α × β) → α → β → List (α × β)
  | [], k, v => [(k, v)]
  | (k0, v0) :: m, k, v =>
      if k = k0 then (k, v) :: m else (k0, v0) :: mapInsert m k v

/-- Lookup in an association-list map. -/
def mapLookup {α β : Type} [DecidableEq α] : List (α × β) → α → Option β
  | [], _ => none
  | (k0, v0) :: m, k => if k = k0 then some v0 else mapLookup m k

/-- Insertion into a set of strings (map[string]struct\x7b\x7d). -/
def setInsert (s : List String) (x : String) : List String :=
  if x ∈ s then s else s ++ [x]

/-! ## The 2023 cache (src/unnamed/part_002, package cache) -/

/-- Modelled from the spec: the artifactKey type and its constructor
toArtifactKey are declared in a repository file that is not present here
(only their call sites are).  Spec section 3 describes ArtifactKey as the
structured composite (release name, OS, architecture), section 9 insists it
stay a structured tuple; the composite key is therefore a three-field
structure. -/
structure artifactKey where
  releaseName : String
  os : String
  arch : String
deriving DecidableEq, Repr

/-- Modelled from the spec: constructor of the composite key from release
name, OS and architecture (no further normalization; the call sites in
doUpdate lower-case their arguments before calling it). -/
def toArtifactKey (releaseName os arch : String) : artifactKey :=
  ⟨releaseName, os, arch⟩

/-- The mutable fields of the 2023 Cache struct, i.e. one snapshot that a
reader holding the read lock can observe. -/
structure CState where
  releaseNames : List String
  checksums : List (artifactKey × String)
  releaseArtifactNames : List (artifactKey × String)
  latestReleaseName : String
  latestReleaseArtifacts : List (artifactKey × String)
deriving DecidableEq, Repr

/-- The empty state built by cache.New. -/
def CState.initial : CState := ⟨[], [], [], "", []⟩

/-- Cache.GetLatestReleaseName. -/
def CState.GetLatestReleaseName (c : CState) : String :=
  c.latestReleaseName

/-- Cache.ReleaseNameExists. -/
def CState.ReleaseNameExists (c : CState) (releaseName : String) : Bool :=
  releaseName ∈ c.releaseNames

/-- Cache.GetChecksum: empty string when the release name is unknown or the
key has no checksum entry. -/
def CState.GetChecksum (c : CState) (releaseName os arch : String) : String :=
  if c.ReleaseNameExists releaseName = false then ""
  else
    match mapLookup c.checksums (toArtifactKey releaseName os arch) with
    | none => ""
    | some checksum => checksum

/-- Cache.GetLatestReleaseArtifact: looks the key up under the cache's own
latest release name; none models the nil byte slice. -/
def CState.GetLatestReleaseArtifact (c : CState) (os arch : String) : Option String :=
  mapLookup c.latestReleaseArtifacts (toArtifactKey c.latestReleaseName os arch)

/-- Cache.GetReleaseArtifactName: empty string when the release name is
unknown or the key has no entry. -/
def CState.GetReleaseArtifactName (c : CState) (releaseName os arch : String) : String :=
  if c.ReleaseNameExists releaseName = false then ""
  else
    match mapLookup c.releaseArtifactNames (toArtifactKey releaseName os arch) with
    | none => ""
    | some artifactName => artifactName

/-- The filename-to-key parsing step that doUpdate repeats inline at its
three sites: strip the .tar.gz suffix, split on underscore, require more
than two tokens, take token 2 as the OS and rejoin the remaining tokens
with underscore as the architecture. -/
def parseAssetName (assetName : String) : Option (String × String) :=
  let trimmed := goTrimSuffix assetName ".tar.gz"
  let split := goSplit trimmed "_"
  if split.length > 2 then
    some (split.getD 2 "", goJoin (split.drop 3) "_")
  else none

/-- One line of a checksums.txt manifest, as consumed by doUpdate: trim the
line, split on two spaces, require a second field ending in .tar.gz, parse
the filename, and record field 0 as the checksum of the derived key;
malformed lines leave the accumulator unchanged. -/
def processChecksumLine (releaseName : String) (checksums : List (artifactKey × String))
    (line : String) : List (artifactKey × String) :=
  let checksumLine := goSplit (goTrimSpace line) "  "
  if checksumLine.length > 1 && goHasSuffix (checksumLine.getD 1 "") ".tar.gz" then
    match parseAssetName (checksumLine.getD 1 "") with
    | some (os, arch) =>
        mapInsert checksums (toArtifactKey releaseName os arch) (checksumLine.getD 0 "")
    | none => checksums
  else checksums

/-- The lines a bufio ReadString loop that breaks at EOF delivers: every
newline-terminated line (the trailing delimiter disappears under the
subsequent TrimSpace), with a final unterminated fragment discarded. -/
def manifestLines (content : String) : List String :=
  (goSplit content "\n").dropLast

/-- Accumulator of doUpdate's first loop: release-name set, checksum table,
artifact-name table, plus the asset ids downloaded so far. -/
structure Tables where
  releaseNames : List String
  checksums : List (artifactKey × String)
  releaseArtifactNames : List (artifactKey × String)
  downloads : List Nat
deriving DecidableEq, Repr

/-- One asset of doUpdate's first loop: a checksums.txt asset is downloaded
(a failed download aborts the cycle with the error) and parsed line by line;
a .tar.gz asset only records its (lower-cased) name under its parsed key;
anything else is ignored. -/
def doUpdateAsset (env : Env) (releaseName : String) (t : Tables) (asset : Asset) :
    Except (List Nat) Tables :=
  let assetName := goToLower asset.name
  if assetName = "checksums.txt" then
    match env asset.id with
    | none => .error (t.downloads ++ [asset.id])
    | some content =>
        .ok { t with
                checksums := (manifestLines content).foldl (processChecksumLine releaseName) t.checksums,
                downloads := t.downloads ++ [asset.id] }
  else if goHasSuffix assetName ".tar.gz" then
    match parseAssetName assetName with
    | some (os, arch) =>
        .ok { t with
                releaseArtifactNames :=
                  mapInsert t.releaseArtifactNames (toArtifactKey releaseName os arch) assetName }
    | none => .ok t
  else .ok t

/-- One release of doUpdate's first loop: lower-case the name, add it to the
release-name set, process each asset in order. -/
def doUpdateRelease (env : Env) (t : Tables) (release : Release) : Except (List Nat) Tables :=
  let releaseName := goToLower release.name
  (release.assets).foldlM (doUpdateAsset env releaseName)
    { t with releaseNames := setInsert t.releaseNames releaseName }

/-- The latest-release blob loop of doUpdate: every .tar.gz asset of the
latest release is downloaded (a failure aborts the cycle), and well-formed
names are recorded under keys built from the latest release name. -/
def fetchLatestArtifacts (env : Env) (latestReleaseName : String) :
    List Asset → List (artifactKey × String) → List Nat →
    Except (List Nat) (List (artifactKey × String) × List Nat)
  | [], arts, ds => .ok (arts, ds)
  | asset :: rest, arts, ds =>
      let assetName := goToLower asset.name
      if goHasSuffix assetName ".tar.gz" then
        match env asset.id with
        | none => .error (ds ++ [asset.id])
        | some artifactBytes =>
            match parseAssetName assetName with
            | some (os, arch) =>
                fetchLatestArtifacts env latestReleaseName rest
                  (mapInsert arts (toArtifactKey latestReleaseName os arch) artifactBytes)
                  (ds ++ [asset.id])
            | none => fetchLatestArtifacts env latestReleaseName rest arts (ds ++ [asset.id])
      else fetchLatestArtifacts env latestReleaseName rest arts ds

/-- Result of one doUpdate call: whether it returned an error, the sequence
of states it published (one entry per completed write-lock section, in
order; a reader can additionally observe the pre-state before the first
publish), and the asset ids it requested from the client. -/
structure DoUpdateOut where
  err : Bool
  published : List CState
  downloads : List Nat
deriving DecidableEq, Repr

/-- The state a reader observes once doUpdate has returned: the last
published state, or the unchanged pre-state when nothing was published. -/
def DoUpdateOut.final (out : DoUpdateOut) (pre : CState) : CState :=
  (out.published.getLast?).getD pre

/-- Cache.doUpdate of the 2023 implementation.  Mirrors the source: list
releases (an error aborts with nothing published); return success without
touching any field when the listing is empty; rebuild the release-name set,
checksum table and artifact-name table; publish those three fields in a
first lock section; then, only if the latest release name differs from the
cached one, download the latest release's .tar.gz assets into a fresh map
(a download failure aborts after the first publish); finally publish
latestReleaseName together with the fresh (possibly empty) blob map in a
second lock section. -/
def doUpdate (env : Env) (listResult : Option (List Release)) (c : CState) : DoUpdateOut :=
  match listResult with
  | none => ⟨true, [], []⟩
  | some releases =>
    if releases.length < 1 then ⟨false, [], []⟩
    else
      match releases.foldlM (doUpdateRelease env) (⟨[], [], [], []⟩ : Tables) with
      | .error ds => ⟨true, [], ds⟩
      | .ok t =>
          let s1 : CState :=
            { c with
                releaseNames := t.releaseNames,
                checksums := t.checksums,
                releaseArtifactNames := t.releaseArtifactNames }
          let latestRelease := releases.headD ⟨"", "", []⟩
          let latestReleaseName := goToLower latestRelease.name
          if c.latestReleaseName ≠ latestReleaseName then
            match fetchLatestArtifacts env latestReleaseName latestRelease.assets [] t.downloads with
            | .error ds => ⟨true, [s1], ds⟩
            | .ok (arts, ds) =>
                ⟨false,
                 [s1, { s1 with latestReleaseName := latestReleaseName,
                                latestReleaseArtifacts := arts }],
                 ds⟩
          else
            ⟨false,
             [s1, { s1 with latestReleaseName := latestReleaseName,
                            latestReleaseArtifacts := [] }],
             t.downloads⟩

/-! ## The 2021 cache (pkg/cache/cache.go) -/

/-- The composite key of the 2021 implementation. -/
structure releaseKey where
  Version : String
  OS : String
  Arch : String
deriving DecidableEq, Repr

/-- The mutable fields of the 2021 Cache struct: versions maps a release
name to its commit reference, releases holds the cached binaries of every
release, checksums the recorded digests, latest the latest release name. -/
structure OldCache where
  versions : List (String × String)
  releases : List (releaseKey × String)
  checksums : List (releaseKey × String)
  latest : String
deriving DecidableEq, Repr

/-- The empty state built by cache.New of the 2021 implementation. -/
def OldCache.initial : OldCache := ⟨[], [], [], ""⟩

/-- Cache.GetChecksum of the 2021 implementation. -/
def OldCache.GetChecksum (c : OldCache) (version os arch : String) : Option String :=
  match mapLookup c.versions version with
  | none => none
  | some _ => mapLookup c.checksums ⟨version, os, arch⟩

/-- Cache.GetRelease of the 2021 implementation. -/
def OldCache.GetRelease (c : OldCache) (version os arch : String) : Option String :=
  match mapLookup c.versions version with
  | none => none
  | some _ => mapLookup c.releases ⟨version, os, arch⟩

/-- One line of checksums.txt as parsed by the 2021 update loop; identical
logic to the 2023 one but building releaseKey entries. -/
def processChecksumLineOld (releaseName : String) (checksums : List (releaseKey × String))
    (line : String) : List (releaseKey × String) :=
  let checksumLine := goSplit (goTrimSpace line) "  "
  if checksumLine.length > 1 && goHasSuffix (checksumLine.getD 1 "") ".tar.gz" then
    let trimmed := goTrimSuffix (checksumLine.getD 1 "") ".tar.gz"
    let split := goSplit trimmed "_"
    if split.length > 2 then
      mapInsert checksums ⟨releaseName, split.getD 2 "", goJoin (split.drop 3) "_"⟩
        (checksumLine.getD 0 "")
    else checksums
  else checksums

/-- A binary download queued by the 2021 update loop: owning release name
(already lower-cased), asset id, asset name (already lower-cased). -/
structure PendingDownload where
  releaseName : String
  assetID : Nat
  assetName : String
deriving DecidableEq, Repr

/-- The main loop of the 2021 update over the changed releases: checksum
manifests are downloaded synchronously (a failure aborts the whole update)
and parsed into the shared checksum accumulator; .tar.gz assets are queued
as download goroutines; other assets are ignored. -/
def updatePhaseAAssets (env : Env) (releaseName : String) :
    List Asset → List (releaseKey × String) → List PendingDownload → List Nat →
    Except (List Nat) (List (releaseKey × String) × List PendingDownload × List Nat)
  | [], cks, pending, ds => .ok (cks, pending, ds)
  | asset :: assets, cks, pending, ds =>
      let assetName := goToLower asset.name
      if assetName = "checksums.txt" then
        match env asset.id with
        | none => .error (ds ++ [asset.id])
        | some content =>
            updatePhaseAAssets env releaseName assets
              ((manifestLines content).foldl (processChecksumLineOld releaseName) cks)
              pending (ds ++ [asset.id])
      else if goHasSuffix assetName ".tar.gz" then
        updatePhaseAAssets env releaseName assets cks
          (pending ++ [⟨releaseName, asset.id, assetName⟩]) ds
      else updatePhaseAAssets env releaseName assets cks pending ds

/-- The per-release driver of the 2021 main loop. -/
def updatePhaseA (env : Env) :
    List Release → List (releaseKey × String) → List PendingDownload → List Nat →
    Except (List Nat) (List (releaseKey × String) × List PendingDownload × List Nat)
  | [], cks, pending, ds => .ok (cks, pending, ds)
  | release :: rest, cks, pending, ds =>
      match updatePhaseAAssets env (goToLower release.name) release.assets cks pending ds with
      | .error ds => .error ds
      | .ok (cks, pending, ds) => updatePhaseA env rest cks pending ds

/-- The download goroutines of the 2021 update, run at the wg.Wait point: a
failed download or a malformed name skips the asset; a digest differing
from a recorded checksum skips the asset; an asset whose key has no
recorded checksum is stored anyway (the code logs that it will ignore the
asset and then stores it). -/
def updatePhaseB (sha256hex : String → String) (env : Env) :
    List PendingDownload → List (releaseKey × String) → List (releaseKey × String) → List Nat →
    List (releaseKey × String) × List Nat
  | [], _, updatedReleases, ds => (updatedReleases, ds)
  | p :: rest, updatedChecksums, updatedReleases, ds =>
      match env p.assetID with
      | none => updatePhaseB sha256hex env rest updatedChecksums updatedReleases (ds ++ [p.assetID])
      | some assetBytes =>
          let trimmed := goTrimSuffix p.assetName ".tar.gz"
          let split := goSplit trimmed "_"
          if split.length > 2 then
            let key : releaseKey := ⟨p.releaseName, split.getD 2 "", goJoin (split.drop 3) "_"⟩
            match mapLookup updatedChecksums key with
            | some checksum =>
                if sha256hex assetBytes ≠ checksum then
                  updatePhaseB sha256hex env rest updatedChecksums updatedReleases (ds ++ [p.assetID])
                else
                  updatePhaseB sha256hex env rest updatedChecksums
                    (mapInsert updatedReleases key assetBytes) (ds ++ [p.assetID])
            | none =>
                updatePhaseB sha256hex env rest updatedChecksums
                  (mapInsert updatedReleases key assetBytes) (ds ++ [p.assetID])
          else updatePhaseB sha256hex env rest updatedChecksums updatedReleases (ds ++ [p.assetID])

/-- The carry-over loop of the 2021 update over the unchanged releases: for
every well-formed .tar.gz asset name in the current listing, the previously
cached binary is copied when present, and only then its checksum entry is
copied when present; a release key whose binary is missing loses both. -/
def carryOverAssets (c : OldCache) (releaseName : String) :
    List Asset → List (releaseKey × String) → List (releaseKey × String) →
    List (releaseKey × String) × List (releaseKey × String)
  | [], updatedReleases, updatedChecksums => (updatedReleases, updatedChecksums)
  | asset :: assets, updatedReleases, updatedChecksums =>
      let assetName := goToLower asset.name
      if goHasSuffix assetName ".tar.gz" then
        let trimmed := goTrimSuffix assetName ".tar.gz"
        let split := goSplit trimmed "_"
        if split.length > 2 then
          let key : releaseKey := ⟨releaseName, split.getD 2 "", goJoin (split.drop 3) "_"⟩
          match mapLookup c.releases key with
          | some assetBytes =>
              let updatedReleases := mapInsert updatedReleases key assetBytes
              match mapLookup c.checksums key with
              | some checksum =>
                  carryOverAssets c releaseName assets updatedReleases
                    (mapInsert updatedChecksums key checksum)
              | none => carryOverAssets c releaseName assets updatedReleases updatedChecksums
          | none => carryOverAssets c releaseName assets updatedReleases updatedChecksums
        else carryOverAssets c releaseName assets updatedReleases updatedChecksums
      else carryOverAssets c releaseName assets updatedReleases updatedChecksums

/-- The per-release driver of the 2021 carry-over loop. -/
def updateCarryOver (c : OldCache) :
    List Release → List (releaseKey × String) → List (releaseKey × String) →
    List (releaseKey × String) × List (releaseKey × String)
  | [], updatedReleases, updatedChecksums => (updatedReleases, updatedChecksums)
  | release :: rest, updatedReleases, updatedChecksums =>
      let (updatedReleases, updatedChecksums) :=
        carryOverAssets c (goToLower release.name) release.assets updatedReleases updatedChecksums
      updateCarryOver c rest updatedReleases updatedChecksums

/-- Result of one 2021 update call: error flag, resulting state (the
pre-state when the cycle aborted, since the single publish happens last),
and the asset ids requested. -/
structure UpdateOut where
  err : Bool
  state : OldCache
  downloads : List Nat
deriving DecidableEq, Repr

/-- Cache.update of the 2021 implementation.  Mirrors the source: list
releases (an error aborts, keeping the old state); the latest name is the
lower-cased name of the first listed release (empty string for an empty
listing); releases whose recorded commit reference is missing or differs
are re-fetched, the others carried over; everything is published in one
lock section at the end. -/
def update (sha256hex : String → String) (env : Env) (listResult : Option (List Release))
    (c : OldCache) : UpdateOut :=
  match listResult with
  | none => ⟨true, c, []⟩
  | some releases =>
      let latest :=
        match releases with
        | [] => ""
        | r :: _ => goToLower r.name
      let updatedVersions :=
        releases.foldl (fun m r => mapInsert m (goToLower r.name) r.targetCommitish) []
      let changed : Release → Bool := fun r =>
        match mapLookup c.versions (goToLower r.name) with
        | none => true
        | some commitHash => r.targetCommitish ≠ commitHash
      let releasesToUpdate := releases.filter fun r => changed r
      let releasesToKeep := releases.filter fun r => !(changed r)
      match updatePhaseA env releasesToUpdate [] [] [] with
      | .error ds => ⟨true, c, ds⟩
      | .ok (updatedChecksums, pending, ds) =>
          let (updatedReleases, ds) := updatePhaseB sha256hex env pending updatedChecksums [] ds
          let (updatedReleases, updatedChecksums) :=
            updateCarryOver c releasesToKeep updatedReleases updatedChecksums
          ⟨false,
           { versions := updatedVersions, releases := updatedReleases,
             checksums := updatedChecksums, latest := latest },
           ds⟩

/-! ## The 2023 serving layer (src/unnamed/part_002, package server) -/

/-- Outcome of the artifact endpoint: served bytes, a redirect to the
upstream download URL for the recorded artifact name, or 404. -/
inductive ArtifactResponse where
  | body (artifactBytes : String)
  | redirect (releaseName artifactName : String)
  | notFound
deriving DecidableEq, Repr

/-- Server.GetChecksum: passes the path parameters to the cache unchanged
and turns an empty result into 404. -/
def serverGetChecksum (c : CState) (releaseName os arch : String) : Option String :=
  let checksum := c.GetChecksum releaseName os arch
  if checksum.length = 0 then none else some checksum

/-- Server.GetReleaseArtifact: lower-cases the requested release name; if it
equals the cache's latest release name the in-memory blob is served (404
when nil), otherwise the recorded artifact name is looked up and answered
as a redirect (404 when empty). -/
def serverGetReleaseArtifact (c : CState) (releaseName os arch : String) : ArtifactResponse :=
  let releaseName := goToLower releaseName
  if c.GetLatestReleaseName = releaseName then
    match c.GetLatestReleaseArtifact os arch with
    | none => .notFound
    | some artifactBytes => .body artifactBytes
  else
    let artifactName := c.GetReleaseArtifactName releaseName os arch
    if artifactName = "" then .notFound else .redirect releaseName artifactName

/-! ## Map lemmas -/

/-- Looking up the inserted key finds the inserted value. -/
theorem mapLookup_mapInsert_self {α β : Type} [DecidableEq α]
    (m : List (α × β)) (k : α) (v : β) : mapLookup (mapInsert m k v) k = some v := by
  induction m with
  | nil => simp [mapInsert, mapLookup]
  | cons kv m ih =>
      obtain ⟨k0, v0⟩ := kv
      by_cases h : k = k0
      · simp [mapInsert, mapLookup, h]
      · simp [mapInsert, mapLookup, h, ih]

/-- Every entry of an insertion is the inserted pair or an original entry. -/
theorem mem_mapInsert {α β : Type} [DecidableEq α]
    (m : List (α × β)) (k : α) (v : β) :
    ∀ x ∈ mapInsert m k v, x = (k, v) ∨ x ∈ m := by
  induction m with
  | nil => simp [mapInsert]
  | cons kv m ih =>
      obtain ⟨k0, v0⟩ := kv
      intro x hx
      by_cases h : k = k0
      · subst h
        simp [mapInsert] at hx
        rcases hx with h1 | h1
        · exact Or.inl (by simp [h1])
        · exact Or.inr (List.mem_cons_of_mem _ h1)
      · simp [mapInsert, h] at hx
        rcases hx with h1 | h1
        · exact Or.inr (by simp [h1])
        · rcases ih x h1 with h2 | h2
          · exact Or.inl h2
          · exact Or.inr (List.mem_cons_of_mem _ h2)

/-- A successful lookup names an entry of the map. -/
theorem mapLookup_mem {α β : Type} [DecidableEq α] :
    ∀ (m : List (α × β)) (k : α) (v : β), mapLookup m k = some v → (k, v) ∈ m := by
  intro m
  induction m with
  | nil => intro k v h; simp [mapLookup] at h
  | cons kv m ih =>
      obtain ⟨k0, v0⟩ := kv
      intro k v h
      by_cases hk : k = k0
      · simp [mapLookup, hk] at h
        simp [hk, h]
      · simp [mapLookup, hk] at h
        exact List.mem_cons_of_mem _ (ih k v h)

/-! ## Claim C10 -/

/-- C10: when the listing call succeeds but returns an empty release list,
doUpdate logs, returns success, publishes nothing, and issues no downloads,
so every cache field is left exactly as it was before the cycle. -/
theorem c10_empty_listing_noop (env : Env) (c : CState) :
    (doUpdate env (some []) c).err = false ∧
    (doUpdate env (some []) c).published = [] ∧
    (doUpdate env (some []) c).downloads = [] ∧
    (doUpdate env (some []) c).final c = c :=
  ⟨rfl, rfl, rfl, rfl⟩

/-! ## Claim C8 -/

/-- C8: asset filename parsing strips the trailing .tar.gz suffix, splits
on underscore, takes the third token as the OS and rejoins all remaining
tokens with underscore as the architecture; in particular the darwin/arm64
example parses as claimed and the multi-part amd64_v2 architecture is
preserved in full rather than truncated at the first token. -/
theorem c8_asset_name_parsing :
    parseAssetName "proj_1.0.0_darwin_arm64.tar.gz" = some ("darwin", "arm64") ∧
    parseAssetName "proj_1.0.0_linux_amd64_v2.tar.gz" = some ("linux", "amd64_v2") := by
  decide

/-! ## Claim C9 -/

/-- C9: the manifest line with digest deadbeefcafed00d and filename
proj_1.0.0_windows_amd64.tar.gz, separated by two spaces, records that
digest in the checksum table under the key (release being parsed, windows,
amd64), whatever the release name and prior table contents are. -/
theorem c9_manifest_line_checksum (releaseName : String)
    (checksums : List (artifactKey × String)) :
    processChecksumLine releaseName checksums
        "deadbeefcafed00d  proj_1.0.0_windows_amd64.tar.gz" =
      mapInsert checksums (toArtifactKey releaseName "windows" "amd64") "deadbeefcafed00d" ∧
    mapLookup
        (processChecksumLine releaseName checksums
          "deadbeefcafed00d  proj_1.0.0_windows_amd64.tar.gz")
        (toArtifactKey releaseName "windows" "amd64") = some "deadbeefcafed00d" := by
  refine ⟨rfl, ?_⟩
  have h :
      processChecksumLine releaseName checksums
          "deadbeefcafed00d  proj_1.0.0_windows_amd64.tar.gz" =
        mapInsert checksums (toArtifactKey releaseName "windows" "amd64") "deadbeefcafed00d" := rfl
  rw [h]
  exact mapLookup_mapInsert_self checksums _ _

/-! ## Claim C1 -/

/-- Environment for the C1 run: one downloadable latest-release asset. -/
def envC1 : Env := fun id => if id = 7 then some "NEWBLOB" else none

/-- Pre-state for the C1 run: a fully populated snapshot for release v1. -/
def preC1 : CState :=
  ⟨["v1"], [(⟨"v1", "linux", "amd64"⟩, "aa")],
   [(⟨"v1", "linux", "amd64"⟩, "proj_1.0.0_linux_amd64.tar.gz")],
   "v1", [(⟨"v1", "linux", "amd64"⟩, "OLDBLOB")]⟩

/-- Listing for the C1 run: a new latest release V2. -/
def relsC1 : List Release := [⟨"V2", "c2", [⟨7, "proj_2.0.0_linux_amd64.tar.gz"⟩]⟩]

/-- C1 fails on the code: doUpdate publishes in two separate write-lock
sections, and the state visible between them (the first published state)
carries the new release set, checksum table and artifact-name table next to
the old latest release name and old latest-artifact blobs, so a reader can
observe a state that is neither the complete prior snapshot nor the
complete new one. -/
theorem c1_split_publish_mixed_state :
    (doUpdate envC1 (some relsC1) preC1).err = false ∧
    ∃ s ∈ (doUpdate envC1 (some relsC1) preC1).published,
      s ≠ preC1 ∧
      s ≠ (doUpdate envC1 (some relsC1) preC1).final preC1 ∧
      s.releaseNames = ((doUpdate envC1 (some relsC1) preC1).final preC1).releaseNames ∧
      s.latestReleaseName = preC1.latestReleaseName ∧
      s.latestReleaseArtifacts = preC1.latestReleaseArtifacts := by
  decide

/-! ## Claim C2 -/

/-- Digest function for the C2 run: B3 hashes to cccc, everything else to
qqqq, so the arm64 blob mismatches its recorded checksum bbbb. -/
def shaC2 : String → String := fun s => if s = "B3" then "cccc" else "qqqq"

/-- Environment for the C2 run: the manifest records a checksum only for
the arm64 artifact; both binaries download successfully. -/
def envC2 : Env := fun id =>
  if id = 1 then some "bbbb  proj_1.0.0_linux_arm64.tar.gz\n"
  else if id = 2 then some "B2"
  else if id = 3 then some "B3"
  else none

/-- Listing for the C2 run: one changed release with a manifest, an amd64
binary without manifest entry, and an arm64 binary with a mismatching
digest. -/
def relsC2 : List Release :=
  [⟨"v1", "c1",
    [⟨1, "checksums.txt"⟩, ⟨2, "proj_1.0.0_linux_amd64.tar.gz"⟩,
     ⟨3, "proj_1.0.0_linux_arm64.tar.gz"⟩]⟩]

/-- C2 fails on the code for the absent-checksum case: update stores the
amd64 blob although no checksum entry exists for its key (right after
logging that it will ignore the asset), while the mismatch case behaves as
claimed (the arm64 blob is omitted) and the cycle completes without
error. -/
theorem c2_absent_checksum_blob_stored :
    (update shaC2 envC2 (some relsC2) OldCache.initial).err = false ∧
    mapLookup (update shaC2 envC2 (some relsC2) OldCache.initial).state.checksums
      ⟨"v1", "linux", "amd64"⟩ = none ∧
    mapLookup (update shaC2 envC2 (some relsC2) OldCache.initial).state.releases
      ⟨"v1", "linux", "amd64"⟩ = some "B2" ∧
    shaC2 "B3" ≠ "bbbb" ∧
    mapLookup (update shaC2 envC2 (some relsC2) OldCache.initial).state.checksums
      ⟨"v1", "linux", "arm64"⟩ = some "bbbb" ∧
    mapLookup (update shaC2 envC2 (some relsC2) OldCache.initial).state.releases
      ⟨"v1", "linux", "arm64"⟩ = none := by
  decide

/-! ## Claim C3 -/

/-- Environment for the C3 run: no download ever succeeds, which proves no
download is attempted when the cycle succeeds anyway. -/
def envC3 : Env := fun _ => none

/-- Pre-state for the C3 run: latest release v1 with one cached blob. -/
def preC3 : CState :=
  ⟨["v1"], [],
   [(⟨"v1", "linux", "amd64"⟩, "proj_1.0.0_linux_amd64.tar.gz")],
   "v1", [(⟨"v1", "linux", "amd64"⟩, "BLOB")]⟩

/-- Listing for the C3 run: the same latest release v1. -/
def relsC3 : List Release := [⟨"v1", "c1", [⟨2, "proj_1.0.0_linux_amd64.tar.gz"⟩]⟩]

/-- C3 fails on the code: with an unchanged latest release name the cycle
does skip all blob downloads, but it then publishes the fresh empty blob
map, wiping the cached blobs, so GetLatestReleaseArtifact no longer returns
the bytes it returned before the cycle (right after the code logs that the
latest release is already cached). -/
theorem c3_unchanged_latest_blobs_wiped :
    (doUpdate envC3 (some relsC3) preC3).err = false ∧
    (doUpdate envC3 (some relsC3) preC3).downloads = [] ∧
    preC3.GetLatestReleaseArtifact "linux" "amd64" = some "BLOB" ∧
    ((doUpdate envC3 (some relsC3) preC3).final preC3).GetLatestReleaseName = "v1" ∧
    ((doUpdate envC3 (some relsC3) preC3).final preC3).GetLatestReleaseArtifact
      "linux" "amd64" = none := by
  decide

/-! ## Claim C4 -/

/-- Digest function for the C4 run: B2 hashes to its recorded checksum. -/
def shaC4 : String → String := fun s => if s = "B2" then "aaaa" else "zzzz"

/-- Environment for the C4 run: the manifest and the amd64 binary download
succeed, the arm64 binary download fails. -/
def envC4 : Env := fun id =>
  if id = 1 then some "aaaa  proj_1.0.0_linux_amd64.tar.gz\nbbbb  proj_1.0.0_linux_arm64.tar.gz\n"
  else if id = 2 then some "B2"
  else none

/-- Listing for the C4 run against the 2021 update. -/
def relsC4 : List Release :=
  [⟨"v1", "c1",
    [⟨1, "checksums.txt"⟩, ⟨2, "proj_1.0.0_linux_amd64.tar.gz"⟩,
     ⟨3, "proj_1.0.0_linux_arm64.tar.gz"⟩]⟩]

/-- Environment for the C4 counterexample run: the latest release's only
asset fails to download. -/
def envC4n : Env := fun _ => none

/-- Pre-state for the C4 counterexample run. -/
def preC4n : CState :=
  ⟨["v1"], [], [], "v1", [(⟨"v1", "linux", "amd64"⟩, "OLDBLOB")]⟩

/-- Listing for the C4 counterexample run: a new latest release. -/
def relsC4n : List Release := [⟨"v2", "c2", [⟨5, "proj_2.0.0_linux_amd64.tar.gz"⟩]⟩]

/-- C4 as stated is refuted by doUpdate: when the download of the latest
release's asset fails after a successful listing, the cycle aborts with an
error (after the first of its two publishes), instead of completing
normally with only that artifact absent. -/
theorem c4_doUpdate_aborts_on_asset_failure :
    (doUpdate envC4n (some relsC4n) preC4n).err = true ∧
    (doUpdate envC4n (some relsC4n) preC4n).published.length = 1 := by
  decide

/-- C4 amended: in the 2021 update a failed binary download only leaves
that one artifact absent — the cycle returns success, every other artifact
is stored, and all tables (versions, checksums, latest) are refreshed and
published — while in the 2023 doUpdate an asset download failure aborts the
cycle with an error (shown in the counterexample). -/
theorem c4_update_skips_failed_asset :
    (update shaC4 envC4 (some relsC4) OldCache.initial).err = false ∧
    mapLookup (update shaC4 envC4 (some relsC4) OldCache.initial).state.releases
      ⟨"v1", "linux", "arm64"⟩ = none ∧
    mapLookup (update shaC4 envC4 (some relsC4) OldCache.initial).state.releases
      ⟨"v1", "linux", "amd64"⟩ = some "B2" ∧
    mapLookup (update shaC4 envC4 (some relsC4) OldCache.initial).state.checksums
      ⟨"v1", "linux", "amd64"⟩ = some "aaaa" ∧
    mapLookup (update shaC4 envC4 (some relsC4) OldCache.initial).state.checksums
      ⟨"v1", "linux", "arm64"⟩ = some "bbbb" ∧
    mapLookup (update shaC4 envC4 (some relsC4) OldCache.initial).state.versions
      "v1" = some "c1" ∧
    (update shaC4 envC4 (some relsC4) OldCache.initial).state.latest = "v1" := by
  decide

/-! ## Claim C5 -/

/-- Digest function for the C5 runs. -/
def shaC5 : String → String := fun s => if s = "B2" then "aaaa" else "zzzz"

/-- Environment for the C5 runs: a manifest and a matching binary. -/
def envC5 : Env := fun id =>
  if id = 1 then some "aaaa  proj_1.0.0_linux_amd64.tar.gz\n"
  else if id = 2 then some "B2"
  else none

/-- Listing for the C5 runs, identical in both cycles, so the release's
commit reference c1 is unchanged between them. -/
def relsC5 : List Release :=
  [⟨"v1", "c1", [⟨1, "checksums.txt"⟩, ⟨2, "proj_1.0.0_linux_amd64.tar.gz"⟩]⟩]

/-- First 2021 cycle of the C5 run, from the empty cache. -/
def outC5a : UpdateOut := update shaC5 envC5 (some relsC5) OldCache.initial

/-- Second 2021 cycle of the C5 run, over the first cycle's state. -/
def outC5b : UpdateOut := update shaC5 envC5 (some relsC5) outC5a.state

/-- First 2023 cycle of the C5 counterexample run, from the empty cache. -/
def finC5n : CState := (doUpdate envC5 (some relsC5) CState.initial).final CState.initial

/-- C5 as stated is refuted by doUpdate: the 2023 implementation keeps no
commit references at all and re-downloads every release's checksum manifest
on every cycle, so the second cycle over an unchanged listing (same commit
reference c1) still issues a network call (asset id 1, the manifest) for
that release. -/
theorem c5_doUpdate_refetches_unchanged_manifest :
    (doUpdate envC5 (some relsC5) finC5n).downloads = [1] ∧
    finC5n.latestReleaseName = "v1" ∧
    (doUpdate envC5 (some relsC5) finC5n).err = false := by
  decide

/-- C5 amended: only the 2021 update implements the commit-reference diff;
there, a release whose commit reference is unchanged between two
consecutive cycles keeps byte-identical checksum entries (carried over
verbatim together with its cached blob) and no downloads at all are issued
during the second cycle, whereas the 2023 doUpdate re-downloads the
checksum manifest of every release on every cycle (shown in the
counterexample). -/
theorem c5_update_carries_unchanged_release_without_downloads :
    outC5a.downloads = [1, 2] ∧
    outC5b.err = false ∧
    outC5b.downloads = [] ∧
    mapLookup outC5a.state.checksums ⟨"v1", "linux", "amd64"⟩ = some "aaaa" ∧
    outC5b.state.checksums = outC5a.state.checksums ∧
    outC5b.state.releases = outC5a.state.releases ∧
    mapLookup outC5b.state.versions "v1" = some "c1" := by
  decide

/-! ## Claim C7 -/

/-- Environment for the C7 run. -/
def envC7 : Env := fun id =>
  if id = 1 then some "deadbeefcafed00d  proj_1.0.0_linux_amd64.tar.gz\n"
  else if id = 2 then some "BLOB"
  else none

/-- Listing for the C7 run: the release is published under the mixed-case
name V1.0.0. -/
def relsC7 : List Release :=
  [⟨"V1.0.0", "c1", [⟨1, "checksums.txt"⟩, ⟨2, "proj_1.0.0_linux_amd64.tar.gz"⟩]⟩]

/-- The snapshot the C7 run publishes. -/
def finC7 : CState := (doUpdate envC7 (some relsC7) CState.initial).final CState.initial

/-- C7 as stated is refuted: the release listed as V1.0.0 is stored under
v1.0.0, but requesting the checksum or the existence check with the casing
V1.0.0 fails, because neither Cache.GetChecksum nor ReleaseNameExists
lower-cases the requested name. -/
theorem c7_uppercase_request_misses :
    finC7.releaseNames = ["v1.0.0"] ∧
    finC7.GetChecksum "v1.0.0" "linux" "amd64" = "deadbeefcafed00d" ∧
    finC7.ReleaseNameExists "V1.0.0" = false ∧
    finC7.GetChecksum "V1.0.0" "linux" "amd64" = "" := by
  decide

/-- C7 amended: release names and asset filenames are lower-cased before
key construction during the refresh, so every stored key is lower-case, and
lookups succeed exactly for the lower-cased name: GetChecksum,
ReleaseNameExists and the checksum endpoint (which passes the path
parameter through unchanged) are case-sensitive and miss on the casing
V1.0.0, while the artifact endpoint lower-cases the requested release name
itself and therefore does serve any casing. -/
theorem c7_lowercased_storage_case_sensitive_lookup :
    finC7.releaseNames = ["v1.0.0"] ∧
    finC7.GetChecksum "v1.0.0" "linux" "amd64" = "deadbeefcafed00d" ∧
    serverGetChecksum finC7 "v1.0.0" "linux" "amd64" = some "deadbeefcafed00d" ∧
    serverGetChecksum finC7 "V1.0.0" "linux" "amd64" = none ∧
    serverGetReleaseArtifact finC7 "V1.0.0" "linux" "amd64" = .body "BLOB" ∧
    serverGetReleaseArtifact finC7 "v1.0.0" "linux" "amd64" = .body "BLOB" := by
  decide

/-! ## Claim C6 -/

/-- Keys accumulated by the latest-blob loop all carry the latest release
name: the loop only ever inserts keys built by toArtifactKey from the
latest release name. -/
theorem fetchLatestArtifacts_keys (env : Env) (n : String) :
    ∀ (assets : List Asset) (arts : List (artifactKey × String)) (ds : List Nat)
      (arts2 : List (artifactKey × String)) (ds2 : List Nat),
      (∀ kv ∈ arts, (kv : artifactKey × String).1.releaseName = n) →
      fetchLatestArtifacts env n assets arts ds = .ok (arts2, ds2) →
      ∀ kv ∈ arts2, kv.1.releaseName = n := by
  intro assets
  induction assets with
  | nil =>
      intro arts ds arts2 ds2 h heq
      simp only [fetchLatestArtifacts, Except.ok.injEq, Prod.mk.injEq] at heq
      obtain ⟨h1, h2⟩ := heq
      subst h1
      exact h
  | cons asset rest ih =>
      intro arts ds arts2 ds2 h heq
      simp only [fetchLatestArtifacts] at heq
      split at heq
      · split at heq
        · cases heq
        · split at heq
          · refine ih _ _ _ _ ?_ heq
            intro kv hkv
            rcases mem_mapInsert _ _ _ kv hkv with h1 | h1
            · subst h1; rfl
            · exact h kv h1
          · exact ih _ _ _ _ h heq
      · exact ih _ _ _ _ h heq

/-- A state whose blob keys all carry its latest release name holds no
entry under any other release's key. -/
theorem blobKeys_unreachable (s : CState)
    (h : ∀ kv ∈ s.latestReleaseArtifacts,
      (kv : artifactKey × String).1.releaseName = s.latestReleaseName) :
    ∀ r os arch, r ≠ s.latestReleaseName →
      mapLookup s.latestReleaseArtifacts (toArtifactKey r os arch) = none := by
  intro r os arch hr
  cases hl : mapLookup s.latestReleaseArtifacts (toArtifactKey r os arch) with
  | none => rfl
  | some b =>
      have hm := mapLookup_mem _ _ _ hl
      exact absurd (h _ hm) hr

/-- C6: in every snapshot doUpdate publishes (given the invariant held
before the cycle), the latest-artifact-blob table contains entries only
under keys whose release-name component equals the name GetLatestReleaseName
reports in that same snapshot; consequently no key of any other release —
in particular of a previous latest release after the latest changed — is
reachable, and everything GetLatestReleaseArtifact serves is an entry
recorded under the current latest release's key.  The latest name and the
blob map are swapped in the same lock section, so this holds in the
intermediate published state as well as the final one. -/
theorem c6_latest_blobs_only_latest_keys (env : Env) (listResult : Option (List Release))
    (c : CState)
    (hpre : ∀ kv ∈ c.latestReleaseArtifacts,
      (kv : artifactKey × String).1.releaseName = c.latestReleaseName) :
    ∀ s ∈ (doUpdate env listResult c).published,
      (∀ kv ∈ s.latestReleaseArtifacts,
        (kv : artifactKey × String).1.releaseName = s.latestReleaseName) ∧
      (∀ r os arch, r ≠ s.latestReleaseName →
        mapLookup s.latestReleaseArtifacts (toArtifactKey r os arch) = none) ∧
      (∀ os arch b, s.GetLatestReleaseArtifact os arch = some b →
        (toArtifactKey s.latestReleaseName os arch, b) ∈ s.latestReleaseArtifacts) := by
  intro s hs
  have hkey : ∀ kv ∈ s.latestReleaseArtifacts,
      (kv : artifactKey × String).1.releaseName = s.latestReleaseName := by
    cases listResult with
    | none => simp [doUpdate] at hs
    | some releases =>
        simp only [doUpdate] at hs
        split at hs
        · simp at hs
        · split at hs
          · simp at hs
          · split at hs
            · split at hs
              · simp at hs
                subst hs
                exact hpre
              · simp at hs
                rcases hs with hs | hs
                · subst hs; exact hpre
                · subst hs
                  rename_i t hne arts2 ds2 hfetch
                  simp only [List.headD_eq_head?] at hfetch
                  exact fetchLatestArtifacts_keys env _ _ [] _ _ _ (by simp) hfetch
            · simp at hs
              rcases hs with hs | hs
              · subst hs; exact hpre
              · subst hs; simp
  exact ⟨hkey, blobKeys_unreachable s hkey, fun os arch b h => mapLookup_mem _ _ _ h⟩

/-- Environment for the C6 witness run. -/
def envC6 : Env := fun id => if id = 9 then some "NEWBLOB6" else none

/-- Pre-state for the C6 witness run: latest v1 with one cached blob, so
the pre-invariant is not vacuous. -/
def preC6 : CState :=
  ⟨["v1"], [], [], "v1", [(⟨"v1", "linux", "amd64"⟩, "OLDBLOB6")]⟩

/-- Listing for the C6 witness run: the latest release changes to v2. -/
def relsC6 : List Release := [⟨"v2", "c2", [⟨9, "proj_2.0.0_linux_amd64.tar.gz"⟩]⟩]

/-- Witness for C6 at a concrete refresh in which the latest release
changes and a blob is downloaded. -/
theorem c6_latest_blobs_only_latest_keys_witness :
    (∀ kv ∈ preC6.latestReleaseArtifacts,
      (kv : artifactKey × String).1.releaseName = preC6.latestReleaseName) ∧
    ∀ s ∈ (doUpdate envC6 (some relsC6) preC6).published,
      (∀ kv ∈ s.latestReleaseArtifacts,
        (kv : artifactKey × String).1.releaseName = s.latestReleaseName) ∧
      (∀ r os arch, r ≠ s.latestReleaseName →
        mapLookup s.latestReleaseArtifacts (toArtifactKey r os arch) = none) ∧
      (∀ os arch b, s.GetLatestReleaseArtifact os arch = some b →
        (toArtifactKey s.latestReleaseName os arch, b) ∈ s.latestReleaseArtifacts) :=
  ⟨by decide, c6_latest_blobs_only_latest_keys envC6 (some relsC6) preC6 (by decide)⟩
